import Mathlib

/-!
Verification development for the PythonicGRIB repository (pyth_grib).

Shallow embedding of `src/pyth_grib/gribmessage.py` and
`src/pyth_grib/gribindex.py`.  The underlying `gribapi` C-binding is an
external collaborator; it is modelled at its interface boundary (spec section 6)
as either an oracle structure (`GribApi`, for the read-only accessor claims) or
as operations threaded through an explicit `World` that records every handle
acquisition and release (for the lifecycle claims).  Python exceptions are
modelled by the `PyExc` inductive; a Python method that can raise returns
`Except PyExc`.  Raising does not undo state, so the stateful operations
return the (possibly updated) `World` alongside the `Except` result.
-/

deriving instance DecidableEq for Except

namespace PythGrib

/-- Python exception values that can flow through this layer.  The constructors
`keyError`, `valueError`, `attrError` (Python AttributeError), `runtimeError`
and `gribInternalError` are the ones the embedded source code can actually
produce; `missingKeyError`, `resourceError`, `selectionError` and
`indexNotSelectedError` are the error classes the specification names, kept in
the vocabulary so that claims about them can be stated (the source defines no
such classes). -/
inductive PyExc where
  | keyError (msg : String)
  | valueError (msg : String)
  | attrError (msg : String)
  | runtimeError (msg : String)
  | gribInternalError (msg : String)
  | missingKeyError
  | resourceError
  | selectionError
  | indexNotSelectedError
  deriving DecidableEq, Repr

/-- Python values as far as the embedded code inspects them: the generic
setter only asks whether a value is iterable and whether it is a string
(`isinstance(value, collections.Iterable)` / `isinstance(value, basestring)`),
and the index-selection trace stores values opaquely. -/
inductive PyValue where
  | int (n : Int)
  | str (s : String)
  | list (xs : List Int)
  | tuple (xs : List Int)
  | noneV
  deriving DecidableEq, Repr

/-- The `type` argument of `GribMessage.get`: a Python type object
(`int` / `float` / `str`) or `None`. -/
inductive PyType where
  | intT
  | floatT
  | strT
  deriving DecidableEq, Repr

/-- `isinstance(value, collections.Iterable)` over the modelled value
universe: strings, lists and tuples are iterable, numbers and None are not. -/
def PyValue.isIterable : PyValue → Bool
  | PyValue.str _ => true
  | PyValue.list _ => true
  | PyValue.tuple _ => true
  | _ => false

/-- `isinstance(value, basestring)` over the modelled value universe. -/
def PyValue.isString : PyValue → Bool
  | PyValue.str _ => true
  | _ => false

/-- The specification's own classifier for the setter branch: a sequence that
is not textual (spec section 4.2, `set`).  Stated from the spec's words, to be
compared with the condition the source actually tests. -/
def PyValue.specSequenceNotTextual : PyValue → Bool
  | PyValue.list _ => true
  | PyValue.tuple _ => true
  | _ => false

/-- Read-only slice of the external `gribapi` binding used by
`GribMessage.get` / `GribMessage.missing` (spec section 6: `get_scalar`,
`get_array`, `is_missing`, plus the dedicated payload-array reader
`grib_get_values`).  Left abstract: the accessor claims quantify over every
behaviour of the binding. -/
structure GribApi where
  grib_is_missing : Nat → String → Bool
  grib_get : Nat → String → Option PyType → Except PyExc PyValue
  grib_get_array : Nat → String → Option PyType → Except PyExc PyValue
  grib_get_values : Nat → Except PyExc PyValue

/-- `GribMessage.missing` (gribmessage.py lines 157-159):
`return bool(gribapi.grib_is_missing(self.gid, key))`. -/
def GribMessage.missing (api : GribApi) (gid : Nat) (key : String) : Bool :=
  api.grib_is_missing gid key

/-- `GribMessage.get` (gribmessage.py lines 140-156).  Source:
if `self.missing(key)` raise `KeyError("Key is missing from message.")`;
if `key == "values"` return `grib_get_values(gid)`; otherwise try
`grib_get(gid, key, type)` and, only when that raises a `GribInternalError`
whose message is exactly `"Passed array is too small"`, return
`grib_get_array(gid, key, type)`; any other exception propagates. -/
def GribMessage.get (api : GribApi) (gid : Nat) (key : String)
    (type : Option PyType) : Except PyExc PyValue :=
  if GribMessage.missing api gid key then
    Except.error (PyExc.keyError "Key is missing from message.")
  else if key == "values" then
    api.grib_get_values gid
  else
    match api.grib_get gid key type with
    | Except.ok v => Except.ok v
    | Except.error (PyExc.gribInternalError m) =>
      if m == "Passed array is too small" then
        api.grib_get_array gid key type
      else
        Except.error (PyExc.gribInternalError m)
    | Except.error e => Except.error e

/-- The call `GribMessage.__setitem__` dispatches to: either the array-set
entry point or the scalar-set entry point of the external binding, with its
arguments. -/
inductive SetCall where
  | grib_set_array (gid : Nat) (key : String) (value : PyValue)
  | grib_set (gid : Nat) (key : String) (value : PyValue)
  deriving DecidableEq, Repr

/-- Which entry point a `SetCall` is. -/
def SetCall.isArrayPath : SetCall → Bool
  | SetCall.grib_set_array _ _ _ => true
  | SetCall.grib_set _ _ _ => false

/-- `GribMessage.__setitem__` (gribmessage.py lines 77-88): if the value is
iterable and not a string, call `gribapi.grib_set_array(gid, key, value)`,
otherwise call `gribapi.grib_set(gid, key, value)`. -/
def GribMessage.setitem (gid : Nat) (key : String) (value : PyValue) : SetCall :=
  if value.isIterable && !value.isString then
    SetCall.grib_set_array gid key value
  else
    SetCall.grib_set gid key value

/-!
Lifecycle layer.  Handles handed out by the external binding are tagged with
their kind, following spec section 6: the message-handle constructors
(`grib_new_from_file`, `grib_new_from_samples`, `grib_new_from_index` — the
latter is `new_handle_from_index`: it materialises a *message* from an index)
return message handles, while `grib_index_new_from_file` and
`grib_index_read` return index handles.
-/

/-- An opaque handle of the external binding, tagged with its kind. -/
inductive Handle where
  | msgHandle (n : Nat)
  | idxHandle (n : Nat)
  deriving DecidableEq, Repr

/-- Whether a handle is an index handle (usable by the `grib_index_*`
operations of the binding). -/
def Handle.isIndexKind : Handle → Bool
  | Handle.idxHandle _ => true
  | Handle.msgHandle _ => false

/-- The observable state of the external binding plus the Python object
allocator: a counter for fresh handles, a counter for fresh Python object
identities (`nextOid`), and traces of every acquiring call, every
`grib_release`, every `grib_index_release`, every `grib_index_select` and
every `grib_write`, in call order. -/
structure World where
  nextId : Nat
  nextOid : Nat
  acquired : List Handle
  releasedGids : List Handle
  releasedIids : List Handle
  selectCalls : List (Handle × String × PyValue)
  writes : List (Handle × Nat)
  deriving DecidableEq, Repr

/-- The empty initial world: nothing acquired, nothing released. -/
def w0 : World :=
  { nextId := 0, nextOid := 0, acquired := [], releasedGids := [],
    releasedIids := [], selectCalls := [], writes := [] }

/-- Allocate a fresh message handle and record the acquisition. -/
def World.allocMsgHandle (w : World) : Handle × World :=
  (Handle.msgHandle w.nextId,
   { w with nextId := w.nextId + 1,
            acquired := w.acquired ++ [Handle.msgHandle w.nextId] })

/-- Allocate a fresh index handle and record the acquisition. -/
def World.allocIdxHandle (w : World) : Handle × World :=
  (Handle.idxHandle w.nextId,
   { w with nextId := w.nextId + 1,
            acquired := w.acquired ++ [Handle.idxHandle w.nextId] })

/-- Allocate a fresh Python object identity. -/
def World.bumpOid (w : World) : World :=
  { w with nextOid := w.nextOid + 1 }

namespace gribapi

/-- `gribapi.grib_new_from_file(file_handle)`: acquires a new message handle. -/
def grib_new_from_file (fh : Nat) (w : World) : Handle × World :=
  w.allocMsgHandle

/-- `gribapi.grib_new_from_samples(name)`: acquires a new message handle. -/
def grib_new_from_samples (s : String) (w : World) : Handle × World :=
  w.allocMsgHandle

/-- `gribapi.grib_new_from_index(iid)` (spec section 6
`new_handle_from_index`): materialises the next matching *message* from the
index — it acquires a new message handle, not an index handle. -/
def grib_new_from_index (iid : Handle) (w : World) : Handle × World :=
  w.allocMsgHandle

/-- `gribapi.grib_index_new_from_file(filename, keys)`: acquires a new index
handle. -/
def grib_index_new_from_file (filename : String) (keys : List String)
    (w : World) : Handle × World :=
  w.allocIdxHandle

/-- `gribapi.grib_index_read(filename)`: acquires a new index handle. -/
def grib_index_read (filename : String) (w : World) : Handle × World :=
  w.allocIdxHandle

/-- `gribapi.grib_release(gid)`: records the release of a message handle. -/
def grib_release (gid : Handle) (w : World) : World :=
  { w with releasedGids := w.releasedGids ++ [gid] }

/-- `gribapi.grib_index_release(iid)`: records the release of an index
handle. -/
def grib_index_release (iid : Handle) (w : World) : World :=
  { w with releasedIids := w.releasedIids ++ [iid] }

/-- `gribapi.grib_index_select(iid, key, value)`: records the selection
call. -/
def grib_index_select (iid : Handle) (key : String) (value : PyValue)
    (w : World) : World :=
  { w with selectCalls := w.selectCalls ++ [(iid, key, value)] }

/-- `gribapi.grib_write(gid, outfile)`: records the write call. -/
def grib_write (gid : Handle) (outfile : Nat) (w : World) : World :=
  { w with writes := w.writes ++ [(gid, outfile)] }

end gribapi

/-- A `GribMessage` object after a successful `__init__`: its Python object
identity (`oid`, standing in for Python object identity, which the registry
membership tests use), the handle `self.gid`, the owner back-reference
`self.grib_file` (the object identity of the owning `GribFile`, or `none` —
the source never stores any other kind of owner), and the cached
`self.size`. -/
structure MsgObj where
  oid : Nat
  gid : Handle
  grib_file : Option Nat
  size : Nat
  deriving DecidableEq, Repr

/-- The attributes of a `GribFile` object that the code under `src/` reads or
writes (`gribfile.py` itself is not under `src/`; `gribmessage.py` accesses
exactly these three attributes of its `grib_file`): the underlying file
resource, the count of messages read, and the registry of open messages. -/
structure FileObj where
  file_handle : Nat
  message : Nat
  open_messages : List MsgObj
  deriving DecidableEq, Repr

/-- A `GribIndex` object after a successful `__init__`: the handle
`self.iid`, the `self.keys` attribute, and the registry
`self.open_messages`. -/
structure IdxObj where
  iid : Handle
  keys : Option (List String)
  open_messages : List MsgObj
  deriving DecidableEq, Repr

/-- Python truthiness of an optional string (`None` and `""` are falsy). -/
def pyTruthyStr : Option String → Bool
  | none => false
  | some s => !(s == "")

/-- Python truthiness of an optional list (`None` and `[]` are falsy). -/
def pyTruthyList : Option (List String) → Bool
  | none => false
  | some l => !l.isEmpty

/-- Python `list.remove(x)`: drop the first element equal to `x`, raising
`ValueError` if no element is equal. -/
def listRemove (x : MsgObj) : List MsgObj → Except PyExc (List MsgObj)
  | [] => Except.error (PyExc.valueError "list.remove(x): x not in list")
  | y :: ys =>
    if y = x then Except.ok ys
    else (listRemove x ys).map (fun l => y :: l)

/-- `GribMessage.__init__` (gribmessage.py lines 98-124).  Sequentially:
if `grib_file` is truthy, acquire a handle from the file, increment the
file's `message` counter and set the owner back-reference; elif `clone` is
truthy, take the passed gid as `self.gid` directly; elif `sample` is truthy,
acquire a handle from the sample name; elif `index` is truthy, acquire a
handle via `grib_new_from_index(index.iid)` — reading only `index.iid`,
mutating the index in no way and leaving `self.grib_file = None`; else raise
`RuntimeError`.  On success `self.size` is set from the external
`grib_get_message_size`, modelled by the oracle `msgSizeOf`.  The file
argument carries the owning object's identity together with its state; the
updated file state is returned next to the new message. -/
def GribMessage.init (grib_file : Option (Nat × FileObj)) (clone : Option Handle)
    (sample : Option String) (index : Option IdxObj) (msgSizeOf : Handle → Nat)
    (w : World) : Except PyExc (MsgObj × Option FileObj) × World :=
  match grib_file with
  | some (foid, fo) =>
    let p := gribapi.grib_new_from_file fo.file_handle w
    let fo1 := { fo with message := fo.message + 1 }
    let m : MsgObj :=
      { oid := p.2.nextOid, gid := p.1, grib_file := some foid,
        size := msgSizeOf p.1 }
    (Except.ok (m, some fo1), p.2.bumpOid)
  | none =>
    match clone with
    | some c =>
      let m : MsgObj :=
        { oid := w.nextOid, gid := c, grib_file := none, size := msgSizeOf c }
      (Except.ok (m, none), w.bumpOid)
    | none =>
      if pyTruthyStr sample then
        let p := gribapi.grib_new_from_samples (sample.getD "") w
        let m : MsgObj :=
          { oid := p.2.nextOid, gid := p.1, grib_file := none,
            size := msgSizeOf p.1 }
        (Except.ok (m, none), p.2.bumpOid)
      else
        match index with
        | some idx =>
          let p := gribapi.grib_new_from_index idx.iid w
          let m : MsgObj :=
            { oid := p.2.nextOid, gid := p.1, grib_file := none,
              size := msgSizeOf p.1 }
          (Except.ok (m, none), p.2.bumpOid)
        | none =>
          (Except.error (PyExc.runtimeError
            "No source was supplied (possibilities: grib_file, clone, sample)."),
           w)

/-- `GribMessage.__exit__` (gribmessage.py lines 60-64): release `self.gid`,
then, if `self.grib_file` is set, `self.grib_file.open_messages.remove(self)`.
The caller passes the owning file's state (`none` exactly when
`self.grib_file` is `None`); the updated owner state is returned.  Raising
`ValueError` from `remove` does not undo the release. -/
def GribMessage.exit (m : MsgObj) (grib_file : Option FileObj) (w : World) :
    Except PyExc (Option FileObj) × World :=
  let w1 := gribapi.grib_release m.gid w
  match grib_file with
  | none => (Except.ok none, w1)
  | some fo =>
    match listRemove m fo.open_messages with
    | Except.ok l => (Except.ok (some { fo with open_messages := l }), w1)
    | Except.error e => (Except.error e, w1)

/-- `GribMessage.close` (gribmessage.py lines 65-67):
`self.__exit__(None, None, None)`. -/
def GribMessage.close (m : MsgObj) (grib_file : Option FileObj) (w : World) :
    Except PyExc (Option FileObj) × World :=
  GribMessage.exit m grib_file w

/-- `GribMessage.write` (gribmessage.py lines 163-168): if `outfile` is not
given (falsy), fall back to `self.grib_file.file_handle` — when
`self.grib_file` is `None` this attribute access raises Python
`AttributeError`; then `gribapi.grib_write(self.gid, outfile)`.  The caller
passes the owner's state (`none` exactly when `self.grib_file` is `None`). -/
def GribMessage.write (m : MsgObj) (grib_file : Option FileObj)
    (outfile : Option Nat) (w : World) : Except PyExc Unit × World :=
  match outfile with
  | some f => (Except.ok (), gribapi.grib_write m.gid f w)
  | none =>
    match grib_file with
    | some fo => (Except.ok (), gribapi.grib_write m.gid fo.file_handle w)
    | none =>
      (Except.error (PyExc.attrError
        "NoneType object has no attribute file_handle"), w)

/-- `GribIndex.__init__` (gribindex.py lines 44-73).  Sequentially:
if `filename and keys` (Python truthiness), acquire via
`grib_index_new_from_file`; elif `file_index`, acquire via
`grib_index_read`; elif `grib_index`, set
`self.iid = gribapi.grib_new_from_index(grib_index.iid)` — the
message-from-index constructor of the binding, reading only the other
index's `iid`; else raise `RuntimeError`.  Afterwards `self.keys = keys`
(the parameter, in every branch) and `self.open_messages = []`. -/
def GribIndex.init (filename : Option String) (keys : Option (List String))
    (file_index : Option String) (grib_index : Option IdxObj) (w : World) :
    Except PyExc IdxObj × World :=
  if pyTruthyStr filename && pyTruthyList keys then
    let p := gribapi.grib_index_new_from_file (filename.getD "") (keys.getD []) w
    (Except.ok { iid := p.1, keys := keys, open_messages := [] }, p.2)
  else if pyTruthyStr file_index then
    let p := gribapi.grib_index_read (file_index.getD "") w
    (Except.ok { iid := p.1, keys := keys, open_messages := [] }, p.2)
  else
    match grib_index with
    | some gi =>
      let p := gribapi.grib_new_from_index gi.iid w
      (Except.ok { iid := p.1, keys := keys, open_messages := [] }, p.2)
    | none =>
      (Except.error (PyExc.runtimeError
        "No source was supplied (possibilities: grib_file, clone, sample)."),
       w)

/-- Outcome of the registry-draining `while` loop of
`GribIndex.__exit__`. -/
inductive LoopOut where
  | finished
  | fuelOut
  deriving DecidableEq, Repr

/-- The `while self.open_messages: self.open_messages[0].close()` loop of
`GribIndex.__exit__` (gribindex.py lines 38-39), run with explicit fuel.
`GribMessage.close` consults only the message's `grib_file` back-reference
(which is `None` for every message the source ever constructs from an index)
and never removes the message from *this* list, so the list re-tested by the
loop head is unchanged by an iteration: the loop terminates immediately on an
empty registry and spins forever (here: runs out of fuel) otherwise. -/
def GribIndex.drainLoop : Nat → List MsgObj → World → LoopOut × World
  | _, [], w => (LoopOut.finished, w)
  | 0, _ :: _, w => (LoopOut.fuelOut, w)
  | Nat.succ fuel, m :: rest, w =>
    let r := GribMessage.close m none w
    GribIndex.drainLoop fuel (m :: rest) r.2

/-- `GribIndex.__exit__` (gribindex.py lines 36-40): drain the registry, then
`gribapi.grib_index_release(self.iid)`. -/
def GribIndex.exit (idx : IdxObj) (fuel : Nat) (w : World) : LoopOut × World :=
  match GribIndex.drainLoop fuel idx.open_messages w with
  | (LoopOut.finished, w1) => (LoopOut.finished, gribapi.grib_index_release idx.iid w1)
  | (LoopOut.fuelOut, w1) => (LoopOut.fuelOut, w1)

/-- `GribIndex.close` (gribindex.py lines 41-43):
`self.__exit__(None, None, None)`. -/
def GribIndex.close (idx : IdxObj) (fuel : Nat) (w : World) : LoopOut × World :=
  GribIndex.exit idx fuel w

/-- `GribIndex.select` (gribindex.py lines 86-89):
`gribapi.grib_index_select(self.iid, key, value)` followed by
`return GribMessage(index=self)`.  The method takes one key and one value,
performs no completeness or domain validation, and does not mutate `self`
(the returned index object is the unchanged receiver). -/
def GribIndex.select (idx : IdxObj) (key : String) (value : PyValue)
    (msgSizeOf : Handle → Nat) (w : World) :
    Except PyExc (MsgObj × IdxObj) × World :=
  let w1 := gribapi.grib_index_select idx.iid key value w
  match GribMessage.init none none none (some idx) msgSizeOf w1 with
  | (Except.ok (m, _), w2) => (Except.ok (m, idx), w2)
  | (Except.error e, w2) => (Except.error e, w2)

/-!
Concrete fixtures.  The scenario mirrors the repository's own test suite
(`test/test.py`): an index over `test.grib2` with keys `dataDate` and
`stepRange`, one message selected, then the index closed.
-/

/-- Oracle for the external `grib_get_message_size` used when running the
lifecycle scenarios at concrete inputs. -/
def szZero : Handle → Nat := fun _ => 0

/-- The index object produced by
`GribIndex("test.grib2", ("dataDate", "stepRange"))` in the empty world. -/
def idxA : IdxObj :=
  ⟨Handle.idxHandle 0, some ["dataDate", "stepRange"], []⟩

/-- The world after constructing `idxA`. -/
def wA : World := ⟨1, 0, [Handle.idxHandle 0], [], [], [], []⟩

/-- The message object produced by `idxA.select("dataDate", 20110225)`. -/
def msgA : MsgObj := ⟨0, Handle.msgHandle 1, none, 0⟩

/-- The world after the select call that produced `msgA`. -/
def wB : World :=
  ⟨2, 1, [Handle.idxHandle 0, Handle.msgHandle 1], [], [],
   [(Handle.idxHandle 0, "dataDate", PyValue.int 20110225)], []⟩

/-- The world after `idxA.close()` following the select. -/
def wC : World := { wB with releasedIids := [Handle.idxHandle 0] }

/-- An ownerless message (as produced by the clone or index constructor
branches: `grib_file` is `None`). -/
def msgU : MsgObj := ⟨0, Handle.msgHandle 7, none, 0⟩

/-- An index object standing for the `other` argument of the clone
constructor `GribIndex(grib_index=other)`. -/
def idxOther : IdxObj :=
  ⟨Handle.idxHandle 5, some ["dataDate", "stepRange"], []⟩

/-- Oracle binding on which no key is marked missing; key `"small"` triggers
the distinguishable destination-too-small condition of the scalar reader,
key `"bad"` triggers a different internal error, and every other key reads as
the scalar `1`. -/
def apiA : GribApi where
  grib_is_missing := fun _ _ => false
  grib_get := fun _ key _ =>
    if key == "small" then
      Except.error (PyExc.gribInternalError "Passed array is too small")
    else if key == "bad" then
      Except.error (PyExc.gribInternalError "Key not found")
    else
      Except.ok (PyValue.int 1)
  grib_get_array := fun _ _ _ => Except.ok (PyValue.list [1, 2])
  grib_get_values := fun _ => Except.ok (PyValue.list [9])

/-- Oracle binding on which every key is marked missing. -/
def apiM : GribApi where
  grib_is_missing := fun _ _ => true
  grib_get := fun _ _ _ => Except.ok (PyValue.int 0)
  grib_get_array := fun _ _ _ => Except.ok (PyValue.list [])
  grib_get_values := fun _ => Except.ok (PyValue.list [])

/-!
Claims.
-/

/-- Claim C1 (code behaviour at the failing input): after building an index
and opening one message from it via `select`, closing the index releases only
the index handle — the registry was never non-empty, the selected message's
handle (`msgHandle 1`) is never released, and the message stays usable.  This
contradicts the claim (and `test.py`'s `TestGribIndex.test_memory_management`)
that closing the owner closes every message opened from it. -/
theorem c1_index_close_does_not_close_selected_message :
    GribIndex.init (some "test.grib2") (some ["dataDate", "stepRange"]) none none w0
      = (Except.ok idxA, wA)
  ∧ GribIndex.select idxA "dataDate" (PyValue.int 20110225) szZero wA
      = (Except.ok (msgA, idxA), wB)
  ∧ GribIndex.close idxA 1 wB = (LoopOut.finished, wC)
  ∧ wC.releasedIids = [Handle.idxHandle 0]
  ∧ wC.releasedGids = []
  ∧ idxA.open_messages = [] := by
  decide

/-- Claim C2 (code behaviour at the failing input): the message returned by
`select` carries no owner back-reference (`grib_file = None`) and the index
object is returned unchanged with an empty `open_messages` registry — the
message was never appended to it, contradicting the claim (and `test.py`,
which asserts `len(idx.open_messages) == 1` after `select`). -/
theorem c2_selected_message_unowned_and_unregistered :
    (GribIndex.select idxA "dataDate" (PyValue.int 20110225) szZero wA).1
      = Except.ok (msgA, idxA)
  ∧ msgA.grib_file = none
  ∧ idxA.open_messages = [] := by
  decide

/-- Claim C3 (code behaviour): `GribIndex.select` takes a single key and
value, performs no completeness or domain validation, and succeeds for every
index state, key and value — it can never raise a selection error (the source
defines no `SelectionError` or `IndexNotSelectedError` class at all, although
`test.py` imports `IndexNotSelectedError` and expects it from an incomplete
selection). -/
theorem c3_select_performs_no_validation (idx : IdxObj) (key : String)
    (value : PyValue) (msgSizeOf : Handle → Nat) (w : World) :
    (∃ m w2, GribIndex.select idx key value msgSizeOf w = (Except.ok (m, idx), w2))
  ∧ (GribIndex.select idx key value msgSizeOf w).1 ≠ Except.error PyExc.selectionError
  ∧ (GribIndex.select idx key value msgSizeOf w).1
      ≠ Except.error PyExc.indexNotSelectedError := by
  refine ⟨⟨_, _, rfl⟩, ?_, ?_⟩ <;>
    simp [GribIndex.select, GribMessage.init, pyTruthyStr,
      gribapi.grib_new_from_index, gribapi.grib_index_select]

/-- Claim C4 (counterexample): closing the same ownerless message twice
releases its handle twice — `grib_release` is invoked again on the second
call — refuting the claim that a second close does not release the handle a
second time. -/
theorem c4_close_counterexample :
    (GribMessage.close msgU none ((GribMessage.close msgU none w0).2)).2.releasedGids
      = [Handle.msgHandle 7, Handle.msgHandle 7]
  ∧ (GribMessage.close msgU (some ⟨3, 1, []⟩) w0).1
      = Except.error (PyExc.valueError "list.remove(x): x not in list") := by
  decide

/-- Claim C4 (amended): close is not idempotent.  A second close on a
Message or on an Index invokes the underlying release again (the release
trace grows by the same handle twice); for a Message registered with an
owner, the second close — running against the registry from which the first
close already removed it — additionally raises `ValueError`. -/
theorem c4_amended_close_not_idempotent (g i fh cnt : Nat) (w : World) :
    (GribMessage.close ⟨0, Handle.msgHandle g, none, 0⟩ none w).1 = Except.ok none
  ∧ ((GribMessage.close ⟨0, Handle.msgHandle g, none, 0⟩ none
        ((GribMessage.close ⟨0, Handle.msgHandle g, none, 0⟩ none w).2)).2).releasedGids
      = w.releasedGids ++ [Handle.msgHandle g, Handle.msgHandle g]
  ∧ (GribMessage.close ⟨1, Handle.msgHandle g, some 0, 0⟩ (some ⟨fh, cnt, []⟩) w).1
      = Except.error (PyExc.valueError "list.remove(x): x not in list")
  ∧ ((GribIndex.close ⟨Handle.idxHandle i, none, []⟩ 1
        ((GribIndex.close ⟨Handle.idxHandle i, none, []⟩ 1 w).2)).2).releasedIids
      = w.releasedIids ++ [Handle.idxHandle i, Handle.idxHandle i] := by
  refine ⟨rfl, ?_, rfl, ?_⟩ <;>
    simp [GribMessage.close, GribMessage.exit, gribapi.grib_release,
      GribIndex.close, GribIndex.exit, GribIndex.drainLoop,
      gribapi.grib_index_release]

/-- Claim C5 (counterexample): reading a key that is marked missing fails
with the plain built-in `KeyError("Key is missing from message.")`, not with
a distinct `MissingKeyError` — no such class exists in the source. -/
theorem c5_counterexample_missing_key :
    GribMessage.get apiM 0 "scaleFactorOfSecondFixedSurface" none
      = Except.error (PyExc.keyError "Key is missing from message.")
  ∧ GribMessage.get apiM 0 "scaleFactorOfSecondFixedSurface" none
      ≠ Except.error PyExc.missingKeyError := by
  decide

/-- Claim C5 (amended): for every binding behaviour, key and requested type,
`get` on a key marked missing fails with the built-in
`KeyError("Key is missing from message.")` — the same exception type used
for absent keys, with no distinct `MissingKeyError`. -/
theorem c5_amended_missing_key_plain_keyerror (api : GribApi) (gid : Nat)
    (key : String) (t : Option PyType)
    (h : api.grib_is_missing gid key = true) :
    GribMessage.get api gid key t
      = Except.error (PyExc.keyError "Key is missing from message.") := by
  simp [GribMessage.get, GribMessage.missing, h]

/-- Witness for the amended C5 at a concrete binding and key. -/
theorem c5_amended_missing_key_plain_keyerror_witness :
    apiM.grib_is_missing 0 "scaleFactorOfSecondFixedSurface" = true
  ∧ GribMessage.get apiM 0 "scaleFactorOfSecondFixedSurface" none
      = Except.error (PyExc.keyError "Key is missing from message.") :=
  ⟨rfl, c5_amended_missing_key_plain_keyerror apiM 0
    "scaleFactorOfSecondFixedSurface" none rfl⟩

/-- Claim C6: dispatch of `get` for a non-missing key.  The reserved key
`"values"` is always read through the payload-array reader regardless of the
requested type; any other key is first read through the scalar reader; only
when that reports the distinguishable destination-too-small condition
(`GribInternalError` with message exactly `"Passed array is too small"`) does
`get` retry through the array reader and return that result; any other
underlying failure propagates unchanged. -/
theorem c6_get_dispatch (api : GribApi) (gid : Nat) (key : String)
    (t : Option PyType) :
    (api.grib_is_missing gid "values" = false →
      GribMessage.get api gid "values" t = api.grib_get_values gid)
  ∧ (api.grib_is_missing gid key = false → key ≠ "values" →
      ∀ v, api.grib_get gid key t = Except.ok v →
        GribMessage.get api gid key t = Except.ok v)
  ∧ (api.grib_is_missing gid key = false → key ≠ "values" →
      api.grib_get gid key t
          = Except.error (PyExc.gribInternalError "Passed array is too small") →
        GribMessage.get api gid key t = api.grib_get_array gid key t)
  ∧ (api.grib_is_missing gid key = false → key ≠ "values" →
      ∀ e, api.grib_get gid key t = Except.error e →
        e ≠ PyExc.gribInternalError "Passed array is too small" →
          GribMessage.get api gid key t = Except.error e) := by
  refine ⟨?_, ?_, ?_, ?_⟩
  · intro h
    simp [GribMessage.get, GribMessage.missing, h]
  · intro h hk v hv
    simp [GribMessage.get, GribMessage.missing, h, hk, hv]
  · intro h hk hv
    simp [GribMessage.get, GribMessage.missing, h, hk, hv]
  · intro h hk e hv hne
    cases e <;>
      simp_all [GribMessage.get, GribMessage.missing, h, hk, hv]

/-- Witness for C6: each of the four dispatch branches evaluated on the
concrete binding `apiA`. -/
theorem c6_get_dispatch_witness :
    GribMessage.get apiA 0 "values" none = apiA.grib_get_values 0
  ∧ GribMessage.get apiA 0 "x" none = Except.ok (PyValue.int 1)
  ∧ GribMessage.get apiA 0 "small" none = apiA.grib_get_array 0 "small" none
  ∧ GribMessage.get apiA 0 "bad" none
      = Except.error (PyExc.gribInternalError "Key not found") :=
  ⟨(c6_get_dispatch apiA 0 "x" none).1 rfl,
   (c6_get_dispatch apiA 0 "x" none).2.1 rfl (by decide) (PyValue.int 1) (by decide),
   (c6_get_dispatch apiA 0 "small" none).2.2.1 rfl (by decide) (by decide),
   (c6_get_dispatch apiA 0 "bad" none).2.2.2 rfl (by decide)
     (PyExc.gribInternalError "Key not found") (by decide) (by decide)⟩

/-- Claim C7: the setter takes the array-set path exactly when the supplied
value is a sequence that is not textual (the specification's classifier),
and the chosen path depends only on the shape of the value, never on the key
name. -/
theorem c7_setitem_shape_dispatch (gid : Nat) (key key2 : String)
    (value : PyValue) :
    (GribMessage.setitem gid key value).isArrayPath = value.specSequenceNotTextual
  ∧ (GribMessage.setitem gid key value).isArrayPath
      = (GribMessage.setitem gid key2 value).isArrayPath := by
  cases value <;> exact ⟨rfl, rfl⟩

/-- Claim C8 (counterexample): `write` on a message with no owner and no
destination fails with Python `AttributeError` (the `None` owner has no
`file_handle` attribute), not with `ResourceError`. -/
theorem c8_write_counterexample :
    (GribMessage.write msgU none none w0).1
      = Except.error (PyExc.attrError "NoneType object has no attribute file_handle")
  ∧ (GribMessage.write msgU none none w0).1 ≠ Except.error PyExc.resourceError := by
  decide

/-- Claim C8 (amended): `write` with no destination serializes to the owning
file's underlying resource; for a message with no owner and no destination it
fails — with `AttributeError`, not `ResourceError`. -/
theorem c8_amended_write_fallback (m : MsgObj) (fo : FileObj) (w : World) :
    GribMessage.write m (some fo) none w
      = (Except.ok (), gribapi.grib_write m.gid fo.file_handle w)
  ∧ GribMessage.write m none none w
      = (Except.error (PyExc.attrError
          "NoneType object has no attribute file_handle"), w) :=
  ⟨rfl, rfl⟩

/-- Claim C9 (code behaviour at the failing input):
`GribIndex(grib_index=other)` sets `self.iid` to the result of
`gribapi.grib_new_from_index(other.iid)` — the binding's
message-from-index constructor, which acquires a *message* handle, not a
duplicate of the index — and sets `self.keys` to `None` instead of copying
the other index's keys.  The resulting object is not equivalent to the
original under the index queries, which require an index handle. -/
theorem c9_clone_constructor_gets_message_handle :
    GribIndex.init none none none (some idxOther) w0
      = (Except.ok { iid := Handle.msgHandle 0, keys := none, open_messages := [] },
         { w0 with nextId := 1, acquired := [Handle.msgHandle 0] })
  ∧ Handle.isIndexKind (Handle.msgHandle 0) = false
  ∧ idxOther.keys ≠ none := by
  decide

/-- Claim C10: constructing a `GribMessage` with none of grib_file, clone,
sample or index supplied, and constructing a `GribIndex` with none of
(filename and keys), file_index or grib_index supplied, fails with
`RuntimeError` and returns the world unchanged — in particular the
acquisition trace is untouched, so no handle was acquired and none can
leak. -/
theorem c10_no_source_raises_runtime_error (msgSizeOf : Handle → Nat) (w : World) :
    GribMessage.init none none none none msgSizeOf w
      = (Except.error (PyExc.runtimeError
          "No source was supplied (possibilities: grib_file, clone, sample)."), w)
  ∧ GribIndex.init none none none none w
      = (Except.error (PyExc.runtimeError
          "No source was supplied (possibilities: grib_file, clone, sample)."), w)
  ∧ (GribMessage.init none none none none msgSizeOf w).2.acquired = w.acquired
  ∧ (GribIndex.init none none none none w).2.acquired = w.acquired :=
  ⟨rfl, rfl, rfl, rfl⟩

end PythGrib
